import Mathlib

/-!
Verification development for the polling/ingestion engine of `app.py`
(AI researcher platform).

The embedding below translates the parts of `app.py` that the checked
properties talk about:

* `TwitterAPI.get_user_tweets` (app.py lines 186-243): the external
  content client call, its request construction and its try/except
  error handling.
* the `x_content` store with its `tweet_id UNIQUE` column and the
  `INSERT OR IGNORE` dedup gate (app.py lines 352-368 and 599-610).
* the `system_settings` table with `get_monitoring_interval`,
  `update_monitoring_interval` and the `/api/monitoring_settings`
  POST validation (app.py lines 512-547 and 1040-1068).
* `MonitoringService._check_researchers_batch` and
  `_process_researcher_batch` (app.py lines 568-626): snapshot of
  monitored researchers, slicing into batches of 50, and per-account
  processing with a catch-all exception handler.
* the `/api/researchers` pagination (app.py lines 661-725).

Machine-level conventions: SQLite TEXT timestamps are modelled as
`Option Int` instants; numeric tweet ids are modelled as `Nat`
(`str` on them is injective so string ids and numeric ids agree on
equality); database tables are modelled as Lean lists of rows in
insertion order.
-/

/-- A tweet as delivered by the platform transport
(`tweets_response.data` entries in `get_user_tweets`). -/
structure RawTweet where
  id : Nat
  text : String
  created_at : Option Int
  like_count : Nat
  retweet_count : Nat
  reply_count : Nat
  quote_count : Nat
deriving Repr, DecidableEq

/-- The normalized post dict built by `get_user_tweets`
(app.py lines 210-223). -/
structure Tweet where
  id : Nat
  content : String
  created_at : Option Int
  likes : Nat
  retweets : Nat
  replies : Nat
  quotes : Nat
  author : String
  tweetType : String
  media_urls : List String
  is_retweet : Bool
  is_reply : Bool
deriving Repr, DecidableEq

/-- Line-by-line translation of the dict construction in the loop of
`get_user_tweets` (app.py lines 208-223). -/
def normalizeTweet (username : String) (t : RawTweet) : Tweet :=
  { id := t.id
    content := t.text
    created_at := t.created_at
    likes := t.like_count
    retweets := t.retweet_count
    replies := t.reply_count
    quotes := t.quote_count
    author := username
    tweetType := "original"
    media_urls := []
    is_retweet := false
    is_reply := false }

/-- The mutable attributes of the `TwitterAPI` instance
(`self.client` presence, `self.api_working`, `self.connection_tested`). -/
structure TwitterAPIState where
  hasClient : Bool
  api_working : Bool
  connection_tested : Bool
deriving Repr, DecidableEq

/-- What the underlying transport does during one `get_user_tweets`
call.  `raisesError` covers every exception the tweepy calls can
throw inside the `try` block: transient network failures,
`tweepy.TooManyRequests` (rate limit), and so on.  `userNotFound`
is the `get_user` response carrying no data (unknown handle), and
`tweetsNone` is an empty timeline response. -/
inductive FetchOutcome where
  | userNotFound
  | tweetsNone
  | raisesError (msg : String)
  | tweetsData (ts : List RawTweet)
deriving Repr, DecidableEq

/-- The parameter set actually passed to
`client.get_users_tweets` (app.py lines 198-202): the id, a result
cap of `min(max_results, 50)` and `tweet_fields`.  The
`start_time`/`end_time` arguments of `get_user_tweets` are not
forwarded, so the request built here carries no time bounds. -/
structure TweetsRequest where
  max_results : Nat
  start_time : Option Int
  end_time : Option Int
deriving Repr, DecidableEq

/-- Request construction of `get_user_tweets` (app.py lines 198-202). -/
def get_user_tweets_request (max_results : Nat)
    (start_time end_time : Option Int) : TweetsRequest :=
  { max_results := min max_results 50
    start_time := none
    end_time := none }

/-- The body of the `try` block of `get_user_tweets`
(app.py lines 191-224): it can end in an exception (`Except.error`)
or produce the normalized list. -/
def get_user_tweets_body (username : String) (o : FetchOutcome) :
    Except String (List Tweet) :=
  match o with
  | .userNotFound => .ok []
  | .tweetsNone => .ok []
  | .raisesError msg => .error msg
  | .tweetsData ts => .ok (ts.map (normalizeTweet username))

/-- `get_user_tweets` (app.py lines 186-228): returns `[]` when no
client is configured, runs the body, and the
`except Exception: return []` handler at line 226 turns every raised
exception into an empty result.  No branch assigns to
`self.api_working` or any other attribute, so the state component of
the result is always the input state.  (The later `except` clauses at
lines 230-243 sit after a catch-all `except Exception` and are
unreachable.) -/
def get_user_tweets (s : TwitterAPIState) (username : String)
    (max_results : Nat) (start_time end_time : Option Int)
    (o : FetchOutcome) : List Tweet × TwitterAPIState :=
  if s.hasClient = false then ([], s)
  else
    match get_user_tweets_body username o with
    | .error _ => ([], s)
    | .ok ts => (ts, s)

/-- A row of the `x_content` table (app.py lines 352-368), restricted
to the columns written by the monitoring insert (app.py lines
600-608). -/
structure ContentRow where
  researcher_id : Nat
  tweet_id : Nat
  content : String
  likes_count : Nat
  retweets_count : Nat
  replies_count : Nat
  created_at : Option Int
deriving Repr, DecidableEq

/-- The `x_content` table in insertion order. -/
abbrev ContentStore := List ContentRow

/-- Whether some stored row already carries this `tweet_id`
(the `UNIQUE` column of `x_content`). -/
def hasTweetId (s : ContentStore) (tid : Nat) : Bool :=
  s.any (fun row => row.tweet_id == tid)

/-- `INSERT OR IGNORE INTO x_content ...` followed by the
`cursor.rowcount > 0` check (app.py lines 600-610): a duplicate
`tweet_id` leaves the table untouched and reports `false`; a fresh id
appends the row and reports `true`. -/
def insertPostIfAbsent (s : ContentStore) (r : ContentRow) :
    ContentStore × Bool :=
  if hasTweetId s r.tweet_id then (s, false) else (s ++ [r], true)

/-- The `system_settings` table: `setting_key` is `UNIQUE`, and the
stored TEXT value round-trips through `str`/`int`, so values are
modelled as `Int` directly. -/
abbrev Settings := List (String × Int)

/-- `MonitoringService.get_monitoring_interval` (app.py lines
512-527): look the key up, fall back to 1800 when the row (or the
read) is missing. -/
def get_monitoring_interval (db : Settings) : Int :=
  match (db.find? (fun kv => kv.1 == "monitoring_interval")).map (·.2) with
  | some v => v
  | none => 1800

/-- `MonitoringService.update_monitoring_interval` (app.py lines
529-547): `UPDATE system_settings SET setting_value = ? WHERE
setting_key = 'monitoring_interval'`. -/
def update_monitoring_interval (db : Settings) (v : Int) : Settings :=
  db.map (fun kv =>
    if kv.1 == "monitoring_interval" then (kv.1, v) else kv)

/-- Result of the `/api/monitoring_settings` POST handler: either the
updated settings table or a 400 rejection with its message. -/
inductive SettingsResult where
  | ok (db : Settings)
  | validationError (msg : String)
deriving Repr, DecidableEq

/-- `update_monitoring_settings` (app.py lines 1040-1068):
`interval_seconds = data.get('monitoring_interval')`, rejected when
missing or falsy (`not interval_seconds`), below 300 or above 604800;
otherwise the table is updated through
`update_monitoring_interval`. -/
def update_monitoring_settings (db : Settings) (v : Option Int) :
    SettingsResult :=
  match v with
  | none => .validationError "invalid interval"
  | some v =>
    if v = 0 then .validationError "invalid interval"
    else if v < 300 then .validationError "below minimum"
    else if 604800 < v then .validationError "above maximum"
    else .ok (update_monitoring_interval db v)

/-- A row of the `researchers` table, restricted to the columns the
monitoring cycle reads: `SELECT id, name, x_account FROM researchers
WHERE is_monitoring = 1` (app.py line 573). -/
structure Researcher where
  id : Nat
  name : String
  x_account : String
  is_monitoring : Bool
deriving Repr, DecidableEq

/-- A row of the `monitoring_tasks` table (app.py lines 379-388),
restricted to the columns the cycle touches. -/
structure MonitoringTask where
  researcher_id : Nat
  status : String
  last_check : Nat
deriving Repr, DecidableEq

/-- Behaviour of one `twitter_api.get_user_tweets(x_account,
max_results=5)` call as seen by `_process_researcher_batch`: either
the call (or anything else inside the per-researcher `try`) raises,
or it returns a list of normalized tweets. -/
inductive FetchResult where
  | raises (msg : String)
  | returns (ts : List Tweet)
deriving Repr, DecidableEq

/-- The `x_content` row written for one tweet of one researcher by
the monitoring insert (app.py lines 600-608). -/
def contentRowOf (rid : Nat) (t : Tweet) : ContentRow :=
  { researcher_id := rid
    tweet_id := t.id
    content := t.content
    likes_count := t.likes
    retweets_count := t.retweets
    replies_count := t.replies
    created_at := t.created_at }

/-- One iteration of the loop in `_process_researcher_batch`
(app.py lines 588-626) for researcher `r`, where `fetch` gives the
behaviour of `twitter_api.get_user_tweets` per handle and cap:

* the whole iteration sits in a `try` whose `except` only logs, so a
  raising fetch leaves both tables untouched (lines 624-626);
* `if not tweets: continue` (lines 592-593) skips the researcher
  entirely when the fetch returns no tweets — in particular
  `last_check` is not updated;
* otherwise every tweet goes through the `INSERT OR IGNORE` gate and
  `monitoring_tasks.last_check` is set to the current timestamp for
  this researcher (lines 599-616). -/
def processOne (fetch : String → Nat → FetchResult) (now : Nat)
    (acc : ContentStore × List MonitoringTask) (r : Researcher) :
    ContentStore × List MonitoringTask :=
  match fetch r.x_account 5 with
  | .raises _ => acc
  | .returns ts =>
    if ts.isEmpty then acc
    else
      let store :=
        ts.foldl (fun st t => (insertPostIfAbsent st (contentRowOf r.id t)).1) acc.1
      let tasks :=
        acc.2.map (fun task =>
          if task.researcher_id == r.id then { task with last_check := now }
          else task)
      (store, tasks)

/-- `_process_researcher_batch` (app.py lines 586-626): the
researchers of one batch are processed sequentially. -/
def _process_researcher_batch (fetch : String → Nat → FetchResult)
    (now : Nat) (acc : ContentStore × List MonitoringTask)
    (batch : List Researcher) : ContentStore × List MonitoringTask :=
  batch.foldl (processOne fetch now) acc

/-- The slicing loop of `_check_researchers_batch` (app.py lines
579-584): `for i in range(0, len(researchers), batch_size): batch =
researchers[i:i + batch_size]`. -/
def batchSlices (B : Nat) : List α → List (List α)
  | [] => []
  | x :: xs =>
    if h : B = 0 then []
    else (x :: xs).take B :: batchSlices B ((x :: xs).drop B)
termination_by l => l.length
decreasing_by
  simp only [List.length_drop, List.length_cons]
  omega

/-- `_check_researchers_batch` (app.py lines 568-584): snapshot the
researchers with `is_monitoring = 1` and slice them into batches of
`batch_size = 50`. -/
def _check_researchers_batch (rs : List Researcher) : List (List Researcher) :=
  batchSlices 50 (rs.filter (fun r => r.is_monitoring))

/-- The researchers for which one poll cycle invokes
`twitter_api.get_user_tweets`: exactly the members of the batches,
since `_process_researcher_batch` calls the client for every batch
entry (app.py line 590). -/
def cycleInvoked (rs : List Researcher) : List Researcher :=
  (_check_researchers_batch rs).flatten

/-- SQLite `LIMIT lim OFFSET off` semantics on an ordered result set:
a negative offset counts as zero and a negative limit means
unlimited. -/
def sqlLimitOffset (rows : List α) (lim off : Int) : List α :=
  let dropped := rows.drop (if off < 0 then 0 else off.toNat)
  if lim < 0 then dropped else dropped.take lim.toNat

/-- Effective page size of `get_researchers` (app.py lines 671-675):
`per_page = request.args.get('per_page', 50, type=int)` then
`per_page = min(per_page, 200)`. -/
def effectivePerPage (requested : Option Int) : Int :=
  min (requested.getD 50) 200

/-- The row-selection part of `get_researchers` (app.py lines
671-699): clamp the page size, compute
`offset = (page - 1) * per_page`, and run
`... ORDER BY rank LIMIT per_page OFFSET offset` over the ordered
researcher rows `rs`. -/
def get_researchers_rows (rs : List Researcher) (page : Int)
    (per_page_req : Option Int) : List Researcher :=
  let per_page := effectivePerPage per_page_req
  sqlLimitOffset rs per_page ((page - 1) * per_page)

/-- Sample raw tweet used by concrete evaluations: platform timestamp
50, well before any window start used below. -/
def rawTweetA : RawTweet :=
  { id := 101
    text := "hello"
    created_at := some 50
    like_count := 1
    retweet_count := 2
    reply_count := 3
    quote_count := 4 }

/-- Its normalized form for author handle `"a"`. -/
def tweetA : Tweet := normalizeTweet "a" rawTweetA

/-- A second normalized tweet with a distinct id. -/
def tweetB : Tweet := normalizeTweet "c" { rawTweetA with id := 202, text := "world" }

/-- Fetch behaviour for the three-account resilience scenario:
handle `"a"` yields one tweet, handle `"b"` raises, handle `"c"`
yields one tweet. -/
def fetchABC : String → Nat → FetchResult := fun h _ =>
  if h = "a" then .returns [tweetA]
  else if h = "b" then .raises "boom"
  else .returns [tweetB]

/-- Fetch behaviour where handle `"a"` returns an empty list and the
others behave as in `fetchABC`. -/
def fetchEmptyA : String → Nat → FetchResult := fun h _ =>
  if h = "a" then .returns []
  else if h = "b" then .raises "boom"
  else .returns [tweetB]

/-- The three monitored accounts A, B, C of the resilience scenario. -/
def researcherA : Researcher := { id := 1, name := "A", x_account := "a", is_monitoring := true }

/-- Account B, whose fetch raises in the scenario. -/
def researcherB : Researcher := { id := 2, name := "B", x_account := "b", is_monitoring := true }

/-- Account C. -/
def researcherC : Researcher := { id := 3, name := "C", x_account := "c", is_monitoring := true }

/-- Monitoring tasks for A, B, C with `last_check = 0`. -/
def tasksABC : List MonitoringTask :=
  [ { researcher_id := 1, status := "active", last_check := 0 }
  , { researcher_id := 2, status := "active", last_check := 0 }
  , { researcher_id := 3, status := "active", last_check := 0 } ]

/-- Appending a fresh row makes its id present. -/
theorem hasTweetId_append_self (s : ContentStore) (r : ContentRow) :
    hasTweetId (s ++ [r]) r.tweet_id = true := by
  simp [hasTweetId]

/-- `hasTweetId` is monotone under `insertPostIfAbsent`. -/
theorem hasTweetId_insert_mono (s : ContentStore) (r : ContentRow) (tid : Nat)
    (h : hasTweetId s tid = true) :
    hasTweetId (insertPostIfAbsent s r).1 tid = true := by
  unfold insertPostIfAbsent
  split
  · exact h
  · simpa [hasTweetId] using Or.inl (by simpa [hasTweetId] using h)

/-- After `insertPostIfAbsent s r`, the id of `r` is present. -/
theorem hasTweetId_insert_self (s : ContentStore) (r : ContentRow) :
    hasTweetId (insertPostIfAbsent s r).1 r.tweet_id = true := by
  unfold insertPostIfAbsent
  split
  · assumption
  · exact hasTweetId_append_self s r

/-- C1: `insertPostIfAbsent` called twice with the same
`tweet_id` (even with otherwise different row data, as happens when
the same post is observed by a manual fetch and by the scheduled
cycle) inserts exactly one row: the first call reports `true`, the
second reports `false` and leaves the table untouched, and the table
after the first call holds exactly one row with that `tweet_id`. -/
theorem insertPostIfAbsent_dedup (s : ContentStore) (r r' : ContentRow)
    (hid : r'.tweet_id = r.tweet_id) (h : hasTweetId s r.tweet_id = false) :
    (insertPostIfAbsent s r).2 = true ∧
    (insertPostIfAbsent (insertPostIfAbsent s r).1 r').2 = false ∧
    (insertPostIfAbsent (insertPostIfAbsent s r).1 r').1 = (insertPostIfAbsent s r).1 ∧
    ((insertPostIfAbsent s r).1.filter
        (fun row => row.tweet_id == r.tweet_id)).length = 1 := by
  have h1 : insertPostIfAbsent s r = (s ++ [r], true) := by
    simp [insertPostIfAbsent, h]
  have hmem : hasTweetId (s ++ [r]) r'.tweet_id = true := by
    rw [hid]; exact hasTweetId_append_self s r
  have h2 : insertPostIfAbsent (s ++ [r]) r' = (s ++ [r], false) := by
    simp [insertPostIfAbsent, hmem]
  have hfil : s.filter (fun row => row.tweet_id == r.tweet_id) = [] := by
    rw [List.filter_eq_nil_iff]
    intro a ha
    have := (List.any_eq_false.mp h) a ha
    simpa using this
  refine ⟨by rw [h1], ?_, ?_, ?_⟩
  · rw [h1]; rw [h2]
  · rw [h1]; rw [h2]
  · rw [h1]
    simp [List.filter_append, hfil]

/-- Concrete run of `insertPostIfAbsent_dedup` on an empty table:
the same tweet id 101 observed twice (second time with different
metrics) is stored once. -/
theorem insertPostIfAbsent_dedup_witness :
    (insertPostIfAbsent [] (contentRowOf 1 tweetA)).2 = true ∧
    (insertPostIfAbsent (insertPostIfAbsent [] (contentRowOf 1 tweetA)).1
        (contentRowOf 1 { tweetA with likes := 99 })).2 = false ∧
    (insertPostIfAbsent (insertPostIfAbsent [] (contentRowOf 1 tweetA)).1
        (contentRowOf 1 { tweetA with likes := 99 })).1
      = (insertPostIfAbsent [] (contentRowOf 1 tweetA)).1 ∧
    ((insertPostIfAbsent [] (contentRowOf 1 tweetA)).1.filter
        (fun row => row.tweet_id == (contentRowOf 1 tweetA).tweet_id)).length = 1 :=
  insertPostIfAbsent_dedup [] (contentRowOf 1 tweetA)
    (contentRowOf 1 { tweetA with likes := 99 }) (by decide) (by decide)

/-- C2: for each recoverable condition — unknown handle, empty
timeline, and any exception raised by the transport (covering
transient network failures and rate limits) — `get_user_tweets`
returns the empty list to its caller instead of propagating an
error. -/
theorem get_user_tweets_never_raises (s : TwitterAPIState) (u : String)
    (mr : Nat) (st et : Option Int) :
    (get_user_tweets s u mr st et .userNotFound).1 = [] ∧
    (get_user_tweets s u mr st et .tweetsNone).1 = [] ∧
    ∀ msg, (get_user_tweets s u mr st et (.raisesError msg)).1 = [] := by
  refine ⟨?_, ?_, fun msg => ?_⟩ <;>
    by_cases hc : s.hasClient = false <;>
    simp [get_user_tweets, get_user_tweets_body, hc]

/-- C4 evaluated at a failing input: `get_user_tweets` is called
with the window `[100, 200)`, yet the request sent to the platform
carries no time bounds at all, and a tweet created at instant 50 —
outside the window — is returned to the caller. -/
theorem timeWindow_ignored_at_failing_input :
    get_user_tweets_request 10 (some 100) (some 200)
      = { max_results := 10, start_time := none, end_time := none } ∧
    (get_user_tweets { hasClient := true, api_working := true, connection_tested := true }
        "a" 10 (some 100) (some 200) (.tweetsData [rawTweetA])).1 = [tweetA] ∧
    rawTweetA.created_at = some 50 := by
  decide

/-- C5 counterexample: with the client in the rate-limited state
(`api_working = false`), a subsequent successful call (it returns a
non-empty result) leaves `api_working = false` — the claimed
transition back to Ready does not happen. -/
theorem success_does_not_restore_api_working :
    (get_user_tweets { hasClient := true, api_working := false, connection_tested := true }
        "a" 5 none none (.tweetsData [rawTweetA])).1 ≠ [] ∧
    ((get_user_tweets { hasClient := true, api_working := false, connection_tested := true }
        "a" 5 none none (.tweetsData [rawTweetA])).2).api_working = false := by
  decide

/-- C5 amended: after a quota signal the next call still returns the
empty list without error, but `get_user_tweets` never writes any
client attribute: the state after any call — rate-limited,
successful or otherwise — is exactly the state before it, so no
call transitions the client back to Ready. -/
theorem get_user_tweets_preserves_state (s : TwitterAPIState) (u : String)
    (mr : Nat) (st et : Option Int) (msg : String) (o : FetchOutcome) :
    (get_user_tweets s u mr st et (.raisesError msg)).1 = [] ∧
    (get_user_tweets s u mr st et o).2 = s := by
  constructor
  · by_cases hc : s.hasClient = false <;>
      simp [get_user_tweets, get_user_tweets_body, hc]
  · by_cases hc : s.hasClient = false
    · simp [get_user_tweets, hc]
    · cases hb : get_user_tweets_body u o <;> simp [get_user_tweets, hc, hb]

/-- When the `monitoring_interval` row exists, rewriting it through
`update_monitoring_interval` makes the new value the one read back by
`get_monitoring_interval`. -/
theorem get_monitoring_interval_after_update (db : Settings) (v : Int)
    (h : (db.find? (fun kv => kv.1 == "monitoring_interval")).isSome = true) :
    get_monitoring_interval (update_monitoring_interval db v) = v := by
  induction db with
  | nil => simp at h
  | cons kv rest ih =>
    by_cases hk : kv.1 = "monitoring_interval"
    · simp [update_monitoring_interval, get_monitoring_interval,
        List.find?_cons, hk]
    · have hstep : update_monitoring_interval (kv :: rest) v
          = kv :: update_monitoring_interval rest v := by
        simp [update_monitoring_interval, hk]
      have hfind : ∀ l : Settings,
          (kv :: l).find? (fun x => x.1 == "monitoring_interval")
            = l.find? (fun x => x.1 == "monitoring_interval") := by
        intro l
        apply List.find?_cons_of_neg
        simp [hk]
      rw [hfind] at h
      rw [hstep]
      unfold get_monitoring_interval
      rw [hfind]
      exact ih h

/-- C6: with the `monitoring_interval` setting seeded (as
`init_database` guarantees), the POST handler rejects every value
below 300 or above 604800 with a validation error and no effect, and
for every value in `[300, 604800]` the write goes through and the new
value is what `get_monitoring_interval` subsequently reads. -/
theorem monitoring_interval_validation (db : Settings) (v : Int)
    (hseed : (db.find? (fun kv => kv.1 == "monitoring_interval")).isSome = true) :
    ((v < 300 ∨ 604800 < v) →
        ∃ msg, update_monitoring_settings db (some v) = .validationError msg) ∧
    (300 ≤ v → v ≤ 604800 →
        update_monitoring_settings db (some v)
            = .ok (update_monitoring_interval db v) ∧
        get_monitoring_interval (update_monitoring_interval db v) = v) := by
  constructor
  · rintro (hlt | hgt)
    · by_cases h0 : v = 0
      · exact ⟨"invalid interval", by simp [update_monitoring_settings, h0]⟩
      · exact ⟨"below minimum", by simp [update_monitoring_settings, h0, hlt]⟩
    · have h0 : ¬ v = 0 := by omega
      have hnl : ¬ v < 300 := by omega
      exact ⟨"above maximum", by simp [update_monitoring_settings, h0, hnl, hgt]⟩
  · intro h1 h2
    have h0 : ¬ v = 0 := by omega
    have hnl : ¬ v < 300 := by omega
    have hng : ¬ 604800 < v := by omega
    exact ⟨by simp [update_monitoring_settings, h0, hnl, hng],
      get_monitoring_interval_after_update db v hseed⟩

/-- Concrete run of `monitoring_interval_validation` on the seeded
table: 100 is rejected, 3600 is accepted and read back. -/
theorem monitoring_interval_validation_witness :
    (∃ msg, update_monitoring_settings [("monitoring_interval", 1800)] (some 100)
        = .validationError msg) ∧
    get_monitoring_interval
        (update_monitoring_interval [("monitoring_interval", 1800)] 3600) = 3600 :=
  ⟨(monitoring_interval_validation [("monitoring_interval", 1800)] 100
      (by decide)).1 (Or.inl (by decide)),
   ((monitoring_interval_validation [("monitoring_interval", 1800)] 3600
      (by decide)).2 (by decide) (by decide)).2⟩

/-- C3 counterexample: in the batch A, B, C where B's fetch raises,
A's fetch completes without error but returns no tweets (an account
with no recent posts); after the batch A's `last_check` is still 0 —
it did not advance, against the claim that both non-raising accounts'
`last_check` advance — while C's moved to the new timestamp. -/
theorem lastCheck_not_advanced_for_empty_fetch :
    (_process_researcher_batch fetchEmptyA 1 ([], tasksABC)
        [researcherA, researcherB, researcherC]).2
      = [ { researcher_id := 1, status := "active", last_check := 0 }
        , { researcher_id := 2, status := "active", last_check := 0 }
        , { researcher_id := 3, status := "active", last_check := 1 } ] := by
  decide

/-- C3 amended: in the batch A, B, C where B's fetch raises and the
fetches of A and C return at least one tweet each, the exception is
swallowed and the batch runs to completion: A's and C's
`monitoring_tasks.last_check` are set to the cycle timestamp while
B's keeps its previous value. -/
theorem batch_isolates_raising_account (fetch : String → Nat → FetchResult)
    (now tA tB tC : Nat) (store : ContentStore)
    (tsA tsC : List Tweet) (msg : String)
    (hA : fetch "a" 5 = .returns tsA) (hB : fetch "b" 5 = .raises msg)
    (hC : fetch "c" 5 = .returns tsC) (hA2 : tsA ≠ []) (hC2 : tsC ≠ []) :
    (_process_researcher_batch fetch now
        (store,
          [ { researcher_id := 1, status := "active", last_check := tA }
          , { researcher_id := 2, status := "active", last_check := tB }
          , { researcher_id := 3, status := "active", last_check := tC } ])
        [researcherA, researcherB, researcherC]).2
      = [ { researcher_id := 1, status := "active", last_check := now }
        , { researcher_id := 2, status := "active", last_check := tB }
        , { researcher_id := 3, status := "active", last_check := now } ] := by
  obtain ⟨a0, as, rfl⟩ := List.exists_cons_of_ne_nil hA2
  obtain ⟨c0, cs, rfl⟩ := List.exists_cons_of_ne_nil hC2
  simp [_process_researcher_batch, processOne, researcherA, researcherB,
    researcherC, hA, hB, hC]

/-- Concrete run of `batch_isolates_raising_account` with
`fetchABC`: A and C advance to timestamp 7, B stays at 0. -/
theorem batch_isolates_raising_account_witness :
    (_process_researcher_batch fetchABC 7 ([], tasksABC)
        [researcherA, researcherB, researcherC]).2
      = [ { researcher_id := 1, status := "active", last_check := 7 }
        , { researcher_id := 2, status := "active", last_check := 0 }
        , { researcher_id := 3, status := "active", last_check := 7 } ] :=
  batch_isolates_raising_account fetchABC 7 0 0 0 [] [tweetA] [tweetB] "boom"
    rfl rfl rfl (by decide) (by decide)

/-- Every tweet id inserted by the batch fold ends up present in the
store (and previously present ids stay present). -/
theorem hasTweetId_foldl_insert (rid : Nat) (ts : List Tweet)
    (store : ContentStore) (tid : Nat)
    (h : hasTweetId store tid = true ∨ ∃ t ∈ ts, t.id = tid) :
    hasTweetId
      (ts.foldl (fun st t => (insertPostIfAbsent st (contentRowOf rid t)).1) store)
      tid = true := by
  induction ts generalizing store with
  | nil =>
    rcases h with h | ⟨t, ht, _⟩
    · exact h
    · cases ht
  | cons x xs ih =>
    rcases h with h | ⟨t, ht, rfl⟩
    · exact ih _ (Or.inl (hasTweetId_insert_mono _ _ _ h))
    · rcases List.mem_cons.mp ht with rfl | hmem
      · refine ih _ (Or.inl ?_)
        simpa [contentRowOf] using hasTweetId_insert_self store (contentRowOf rid t)
      · exact ih _ (Or.inr ⟨t, hmem, rfl⟩)

/-- C7 counterexample: a single-account batch where the fetch
completes without error but returns no posts: the `if not tweets:
continue` branch skips the account, so its `last_check` stays 0 —
an error-free processed account does not always end the batch with
its `last_check` updated. -/
theorem lastCheck_skipped_on_empty_fetch :
    (_process_researcher_batch (fun _ _ => .returns []) 1
        ([], [{ researcher_id := 1, status := "active", last_check := 0 }])
        [researcherA]).2
      = [{ researcher_id := 1, status := "active", last_check := 0 }] := by
  decide

/-- C7 amended: for an account whose fetch (with the small cap 5)
returns a non-empty list and raises nothing, the batch step inserts
every returned post through the dedup gate — each fetched tweet id is
present in the store afterwards — and then sets that account's
`monitoring_tasks.last_check` to the cycle timestamp, leaving the
other accounts' tasks untouched.  An account whose fetch returns no
posts is skipped before both steps. -/
theorem processOne_updates_store_and_lastCheck
    (fetch : String → Nat → FetchResult) (now : Nat)
    (store : ContentStore) (tasks : List MonitoringTask) (r : Researcher)
    (ts : List Tweet) (hf : fetch r.x_account 5 = .returns ts) (hne : ts ≠ []) :
    (∀ t ∈ ts,
        hasTweetId (processOne fetch now (store, tasks) r).1 t.id = true) ∧
    (processOne fetch now (store, tasks) r).2
      = tasks.map (fun task =>
          if task.researcher_id == r.id then { task with last_check := now }
          else task) := by
  have hts : ts.isEmpty = false := by
    cases ts
    · exact absurd rfl hne
    · rfl
  constructor
  · intro t ht
    simp only [processOne, hf, hts, Bool.false_eq_true, if_false]
    exact hasTweetId_foldl_insert r.id ts store t.id (Or.inr ⟨t, ht, rfl⟩)
  · simp [processOne, hf, hts]

/-- Concrete run of `processOne_updates_store_and_lastCheck` on
account A with one fetched tweet. -/
theorem processOne_updates_store_and_lastCheck_witness :
    (∀ t ∈ [tweetA],
        hasTweetId (processOne fetchABC 7 ([], tasksABC) researcherA).1 t.id
          = true) ∧
    (processOne fetchABC 7 ([], tasksABC) researcherA).2
      = tasksABC.map (fun task =>
          if task.researcher_id == researcherA.id then { task with last_check := 7 }
          else task) :=
  processOne_updates_store_and_lastCheck fetchABC 7 [] tasksABC researcherA
    [tweetA] rfl (by decide)

/-- The slicing loop yields nothing for an empty snapshot. -/
theorem batchSlices_nil (B : Nat) : batchSlices B ([] : List α) = [] := by
  rw [batchSlices]

/-- One unfolding of the slicing loop on a non-empty snapshot. -/
theorem batchSlices_cons (B : Nat) (hB : B ≠ 0) (x : α) (xs : List α) :
    batchSlices B (x :: xs)
      = (x :: xs).take B :: batchSlices B ((x :: xs).drop B) := by
  rw [batchSlices]
  simp [hB]

/-- The slicing loop forms exactly `⌈N / B⌉` batches. -/
theorem batchSlices_length (B : Nat) (hB : 0 < B) (l : List α) :
    (batchSlices B l).length = (l.length + B - 1) / B := by
  generalize hn : l.length = n
  induction n using Nat.strong_induction_on generalizing l with
  | _ n ih =>
    cases l with
    | nil =>
      simp only [List.length_nil] at hn
      subst hn
      rw [batchSlices_nil]
      simp only [List.length_nil]
      rw [Nat.div_eq_of_lt (by omega)]
    | cons x xs =>
      subst hn
      have hBne : B ≠ 0 := by omega
      rw [batchSlices_cons B hBne]
      have hlt : ((x :: xs).drop B).length < (x :: xs).length := by
        simp only [List.length_drop, List.length_cons]
        omega
      have ihh := ih _ hlt ((x :: xs).drop B) rfl
      rw [List.length_cons, ihh]
      simp only [List.length_drop, List.length_cons]
      set N := xs.length + 1 with hN
      have hN1 : 1 ≤ N := by omega
      have hrw : N + B - 1 = (N - 1) + B := by omega
      rw [hrw, Nat.add_div_right _ hB]
      have hmain : (N - B + B - 1) / B = (N - 1) / B := by
        rcases le_or_lt B N with hle | hlt2
        · have : N - B + B - 1 = N - 1 := by omega
          rw [this]
        · rw [Nat.div_eq_of_lt (by omega), Nat.div_eq_of_lt (by omega)]
      omega

/-- Batch `i` of the slicing loop is the slice `l[i*B : i*B + B]`. -/
theorem batchSlices_getD (B : Nat) (hB : 0 < B) :
    ∀ (i : Nat) (l : List α), i < (batchSlices B l).length →
      (batchSlices B l).getD i [] = (l.drop (i * B)).take B := by
  intro i
  induction i with
  | zero =>
    intro l hi
    cases l with
    | nil => rw [batchSlices_nil] at hi; simp at hi
    | cons x xs =>
      rw [batchSlices_cons B (by omega)]
      simp
  | succ i ih =>
    intro l hi
    cases l with
    | nil => rw [batchSlices_nil] at hi; simp at hi
    | cons x xs =>
      rw [batchSlices_cons B (by omega)] at hi ⊢
      rw [List.getD_cons_succ]
      rw [ih _ (by simpa using hi)]
      rw [List.drop_drop]
      rw [Nat.succ_mul, Nat.add_comm B (i * B)]

/-- Flattening the batches gives back the snapshot: slicing neither
drops nor duplicates accounts. -/
theorem flatten_batchSlices (B : Nat) (hB : 0 < B) (l : List α) :
    (batchSlices B l).flatten = l := by
  generalize hn : l.length = n
  induction n using Nat.strong_induction_on generalizing l with
  | _ n ih =>
    cases l with
    | nil => rw [batchSlices_nil]; rfl
    | cons x xs =>
      rw [batchSlices_cons B (by omega)]
      rw [List.flatten_cons]
      rw [ih (((x :: xs).drop B).length) ?_ _ rfl]
      · exact List.take_append_drop B (x :: xs)
      · subst hn
        simp only [List.length_drop, List.length_cons]
        omega

/-- C8: a cycle over registry `rs` snapshots the enabled accounts and
forms exactly `⌈N / 50⌉` batches, where `N` is the snapshot size;
batch `i` is exactly the slice of snapshot positions
`[i*50, min((i+1)*50, N))`, here expressed as `drop (i * 50)` then
`take 50`. -/
theorem check_researchers_batch_partition (rs : List Researcher) :
    (_check_researchers_batch rs).length
      = ((rs.filter (fun r => r.is_monitoring)).length + 50 - 1) / 50 ∧
    ∀ i, i < (_check_researchers_batch rs).length →
      (_check_researchers_batch rs).getD i []
        = ((rs.filter (fun r => r.is_monitoring)).drop (i * 50)).take 50 :=
  ⟨batchSlices_length 50 (by omega) _,
   fun i hi => batchSlices_getD 50 (by omega) i _ hi⟩

/-- Concrete run of `check_researchers_batch_partition`: three
enabled accounts form one batch holding all of them. -/
theorem check_researchers_batch_partition_witness :
    (_check_researchers_batch [researcherA, researcherB, researcherC]).length = 1 ∧
    (_check_researchers_batch [researcherA, researcherB, researcherC]).getD 0 []
      = [researcherA, researcherB, researcherC] := by
  have h := check_researchers_batch_partition [researcherA, researcherB, researcherC]
  refine ⟨?_, ?_⟩
  · rw [h.1]; decide
  · rw [h.2 0 (by rw [h.1]; decide)]; decide

/-- C9: an account whose `is_monitoring` flag is off at the cycle
snapshot is in no batch, so the poll cycle never invokes the external
client for it. -/
theorem disabled_account_never_fetched (rs : List Researcher) (r : Researcher)
    (h : r.is_monitoring = false) : r ∉ cycleInvoked rs := by
  intro hmem
  unfold cycleInvoked _check_researchers_batch at hmem
  rw [flatten_batchSlices 50 (by omega)] at hmem
  have hflt := List.mem_filter.mp hmem
  rw [h] at hflt
  simp at hflt

/-- Concrete run of `disabled_account_never_fetched`: a registry with
one enabled and one disabled account never fetches the disabled
one. -/
theorem disabled_account_never_fetched_witness :
    ({ id := 9, name := "D", x_account := "d", is_monitoring := false } : Researcher)
      ∉ cycleInvoked
          [researcherA,
           { id := 9, name := "D", x_account := "d", is_monitoring := false }] :=
  disabled_account_never_fetched _ _ rfl

/-- C10: for any requested page size of at least 1, `get_researchers`
uses the effective page size `min(per_page, 200)` — defaulting to 50
when the parameter is absent — and therefore never returns more than
200 rows in one page. -/
theorem get_researchers_page_cap (rs : List Researcher) (page : Int)
    (pp : Int) (hpp : 1 ≤ pp) :
    effectivePerPage (some pp) = min pp 200 ∧
    effectivePerPage none = 50 ∧
    (get_researchers_rows rs page (some pp)).length ≤ 200 := by
  refine ⟨rfl, rfl, ?_⟩
  have h0 : (0 : Int) ≤ min pp 200 := le_min (by omega) (by omega)
  have hnl : ¬ (min pp 200 < 0) := not_lt.mpr h0
  unfold get_researchers_rows sqlLimitOffset effectivePerPage
  simp only [Option.getD_some, hnl, if_false]
  calc (((if ((page - 1) * min pp 200 < 0 : Prop) then 0
            else ((page - 1) * min pp 200).toNat) |> rs.drop).take
          (min pp 200).toNat).length
      ≤ (min pp 200).toNat := by
        rw [List.length_take]
        exact Nat.min_le_left _ _
    _ ≤ 200 := by
        rw [Int.toNat_le]
        exact min_le_right _ _

/-- Concrete run of `get_researchers_page_cap` with an oversized
request of 500 rows per page. -/
theorem get_researchers_page_cap_witness :
    effectivePerPage (some 500) = min 500 200 ∧
    effectivePerPage none = 50 ∧
    (get_researchers_rows [researcherA] 1 (some 500)).length ≤ 200 :=
  get_researchers_page_cap [researcherA] 1 500 (by omega)
